import Mathlib

/-!
Verification of the flowmailer-client credential lifecycle and send logic.

This file gives a shallow embedding, in Lean, of `src/index.js` of the
`flowmailer-client` repository, and proves properties of it.

The source file holds two alternative implementations of the same client
class: a `fetch`-based one (lines 1-186) and an `axios`-based one
(lines 187-391).  Both share the credential-cache fields `_token`,
`_expiresAt`, `_inflightRefresh` and the methods `_mustRenew`,
`_updateAccessToken`, `forceRefresh`, `getAccessToken`; they differ in
`sendEmail` (retry-loop guard, reauth branch, payload building) and only
the fetch variant has `ping`.

Modelling conventions:
* machine integers and JS numbers are modelled by `Nat` (all quantities in
  the source are non-negative: timestamps, statuses, counters);
* JS falsiness of a string field (`!this._token`) is emptiness, of a number
  field (`!this._expiresAt`) is being zero; a missing JSON field is
  modelled as the falsy default (`""` resp. `0`), which the source cannot
  distinguish from a present falsy value;
* `fetch`/`axios` results are oracles: functions from the attempt index to
  the response, and `Except Unit _` where a thrown transport error
  (timeout / abort) is possible;
* async control flow is single-threaded and cooperative in node: code
  between `await` points runs atomically.  The body of `forceRefresh`
  contains no `await` between the `_inflightRefresh` test and its
  assignment, so one `forceRefresh` invocation is one atomic step; the
  settling of the refresh promise (the `.finally` that clears the marker,
  followed by the delivery of the result to every waiter) is another
  atomic step.  The step relation `rstep` below encodes exactly these two
  kinds of steps.
-/

namespace Flowmailer

/-- Decidable equality of outcomes, used to evaluate concrete scenarios. -/
instance {e a : Type} [DecidableEq e] [DecidableEq a] : DecidableEq (Except e a) := fun x y =>
  match x, y with
  | .ok u, .ok v =>
    if h : u = v then isTrue (by rw [h])
    else isFalse (fun hh => by injection hh; exact h (by assumption))
  | .error u, .error v =>
    if h : u = v then isTrue (by rw [h])
    else isFalse (fun hh => by injection hh; exact h (by assumption))
  | .ok _, .error _ => isFalse (fun hh => by injection hh)
  | .error _, .ok _ => isFalse (fun hh => by injection hh)

/-- The string slice `s.slice(0, n)` of JS: the first `n` characters of
`s` (all of `s` when it is shorter).  Written over the character list so
that it evaluates structurally; it agrees with `String.take` (lemma
`sliceStr_eq_take` below). -/
def sliceStr (s : String) (n : Nat) : String := ⟨s.data.take n⟩

/-- One HTTP response, as the send/ping code observes it: a numeric status,
a status text and a body string. -/
structure HttpResp where
  status : Nat
  statusText : String
  body : String
deriving DecidableEq, Repr

/-- The test `resp.ok` of the WHATWG fetch API (also the axios final check
`status < 200 || status >= 300` negated): status in `[200, 300)`. -/
def respOk (s : Nat) : Bool :=
  decide (200 ≤ s) && decide (s < 300)

/-- The JSON body of the authorization endpoint's response, as
`_updateAccessToken` destructures it.  A missing `access_token` is the
empty string and a missing `expires_in` is `0`: the source tests both with
JS falsiness (`!access_token || !expires_in`), which identifies a missing
field with a present falsy one. -/
structure TokenResponse where
  status : Nat
  statusText : String
  access_token : String
  expires_in : Nat
deriving DecidableEq, Repr

/-- The credential cache: the fields `_token` and `_expiresAt` of the
client object. -/
structure Cred where
  token : String
  expiresAt : Nat
deriving DecidableEq, Repr

/-- The constructor sets `this._token = ''` and `this._expiresAt = 0`. -/
def initCred : Cred := { token := "", expiresAt := 0 }

/-- The method `_mustRenew()`:
`!this._token || !this._expiresAt || Date.now() + this.graceMs >= this._expiresAt`. -/
def mustRenew (c : Cred) (now graceMs : Nat) : Bool :=
  c.token == "" || c.expiresAt == 0 || decide (c.expiresAt ≤ now + graceMs)

/-- The method `_updateAccessToken()`, given the current credential, the current time
and the fetched authorization response (`Except.error ()` models a thrown
transport error: timeout / network failure).  Returns the credential after
the call together with the outcome (`Except.error msg` models a thrown
`Error`).  The source mutates `_token`/`_expiresAt` only after every check
has passed, so on every thrown path the credential is returned unchanged. -/
def updateAccessToken (c : Cred) (now : Nat) (fetched : Except Unit TokenResponse) :
    Cred × Except String String :=
  match fetched with
  | .error _ => (c, .error "timeout")
  | .ok resp =>
    if !(respOk resp.status) then
      (c, .error ("Token fetch error: " ++ toString resp.status ++ " " ++ resp.statusText))
    else if resp.access_token == "" || resp.expires_in == 0 then
      (c, .error "Couldnt get access_token from Flowmailer")
    else
      ({ token := resp.access_token, expiresAt := now + resp.expires_in * 1000 },
       .ok resp.access_token)

/-- What `getAccessToken()` does before any I/O: either answer from the
cache or delegate to `forceRefresh()`. -/
inductive TokenAction where
  | cached (t : String)
  | refresh
deriving DecidableEq, Repr

/-- The branch taken by `getAccessToken()`:
`if (this._mustRenew()) return this.forceRefresh(); return this._token;`. -/
def getAccessTokenAction (c : Cred) (now graceMs : Nat) : TokenAction :=
  if mustRenew c now graceMs then .refresh else .cached c.token

/-- The method `getAccessToken()` for a single caller with no refresh already in
flight: returns the credential after the call, the number of token
requests issued (`0` or `1`) and the outcome. -/
def getAccessTokenOnce (c : Cred) (now graceMs : Nat)
    (fetched : Except Unit TokenResponse) : Cred × Nat × Except String String :=
  if mustRenew c now graceMs then
    let u := updateAccessToken c now fetched
    (u.1, 1, u.2)
  else
    (c, 0, .ok c.token)

/-- The spec's staleness rule, stated in the spec's own words: "a
credential is stale when the token is empty, or no expiry is set, or
`now + graceWindow >= expiresAt`". -/
def specStale (c : Cred) (now graceMs : Nat) : Prop :=
  c.token = "" ∨ c.expiresAt = 0 ∨ now + graceMs ≥ c.expiresAt

instance (c : Cred) (now graceMs : Nat) : Decidable (specStale c now graceMs) := by
  unfold specStale; infer_instance

/-! ## Single-flight refresh: a step relation on the shared client state

`forceRefresh()` reads as:
```
async forceRefresh() {
  if (!this._inflightRefresh) {
    this._inflightRefresh = this._updateAccessToken().finally(() => {
      this._inflightRefresh = null;
    });
  }
  return this._inflightRefresh;
}
```
There is no `await` between the test of `_inflightRefresh` and its
assignment, so in node's run-to-completion model one invocation of
`forceRefresh` is one atomic step; calling `_updateAccessToken()` starts
the token request immediately.  When the underlying promise settles, the
`.finally` callback clears the marker and only then does every waiter's
continuation resume with the shared outcome; that settling is the second
kind of atomic step. -/

/-- Identifies one logical caller of `forceRefresh`/`getAccessToken`. -/
abbrev CallerId := Nat

/-- The shared mutable state: the credential cache, whether a refresh
promise is in `_inflightRefresh`, how many token requests have been issued
to the authorization endpoint in total, which callers await the current
in-flight refresh, and the outcomes already delivered to callers. -/
structure RefreshState where
  cred : Cred
  inflight : Bool
  requestsIssued : Nat
  waiters : List CallerId
  results : List (CallerId × Except String String)
deriving Repr

/-- The client state right after the constructor ran. -/
def initRefreshState : RefreshState :=
  { cred := initCred, inflight := false, requestsIssued := 0, waiters := [], results := [] }

/-- The two kinds of atomic steps: a caller invokes `forceRefresh`, or the
in-flight refresh settles with the authorization response `fetched`
observed at time `now`. -/
inductive REvent where
  | call (c : CallerId)
  | settle (now : Nat) (fetched : Except Unit TokenResponse)
deriving Repr

/-- One atomic step.  A `call` while a refresh is in flight merely joins
the waiters of the shared promise; a `call` with no refresh in flight
issues one token request and installs the in-flight marker.  A `settle`
runs the tail of `_updateAccessToken` (mutating the credential on success,
leaving it unchanged on failure), clears the marker and delivers the one
shared outcome to every waiter. -/
def rstep (s : RefreshState) (e : REvent) : RefreshState :=
  match e with
  | .call c =>
    if s.inflight then
      { s with waiters := s.waiters ++ [c] }
    else
      { s with inflight := true, requestsIssued := s.requestsIssued + 1, waiters := [c] }
  | .settle now fetched =>
    if s.inflight then
      let u := updateAccessToken s.cred now fetched
      { s with cred := u.1, inflight := false, waiters := [],
               results := s.results ++ s.waiters.map (fun w => (w, u.2)) }
    else s

/-- Run a sequence of atomic steps. -/
def rrun (s : RefreshState) (es : List REvent) : RefreshState :=
  es.foldl rstep s

/-- The failure condition of `_updateAccessToken`: the fetch threw
(timeout), or the response status is not 2xx, or `access_token` /
`expires_in` is missing or falsy. -/
def refreshFails (fetched : Except Unit TokenResponse) : Prop :=
  match fetched with
  | .error _ => True
  | .ok r => respOk r.status = false ∨ r.access_token = "" ∨ r.expires_in = 0

instance (fetched : Except Unit TokenResponse) : Decidable (refreshFails fetched) := by
  unfold refreshFails; cases fetched <;> infer_instance

/-! ## Reachability of credential states

The only writes to `_token`/`_expiresAt` anywhere in the source are the
two assignments at the end of `_updateAccessToken`; every other method
only reads them.  So the reachable credential states are exactly the
states produced from the constructor's `('', 0)` by iterating
`updateAccessToken`. -/

/-- Credential states reachable from construction. -/
inductive ReachableCred : Cred → Prop where
  | init : ReachableCred initCred
  | refresh (c : Cred) (now : Nat) (fetched : Except Unit TokenResponse) :
      ReachableCred c → ReachableCred (updateAccessToken c now fetched).1

/-! ## sendEmail

The post-validation body of `sendEmail` (fetch variant):
```
let token = await this.getAccessToken();
let resp = await attempt(token);
if (resp.status === 401) {
  await this.forceRefresh();
  token = await this.getAccessToken();
  resp = await attempt(token);
}
let retries = 0;
while (!resp.ok && (resp.status === 429 || resp.status >= 500)
       && retries < this.maxRetries) {
  const backoff = 200 * Math.pow(2, retries);
  await new Promise((r) => setTimeout(r, backoff));
  resp = await attempt(token);
  retries++;
}
if (!resp.ok) { ...throw with status, statusText, body.slice(0, 300)... }
return true;
```
The axios variant differs in three places: the reauth branch is
`await this.forceRefresh(); resp = await attempt();` (no second
`getAccessToken`), the loop guard starts `resp.status !== 202` instead of
`!resp.ok`, and the bearer token travels via a default header set by
`_updateAccessToken` rather than via an argument.

HTTP attempts are an oracle `attemptO : Nat → HttpResp` (the response to
the `k`-th attempt of this call), token requests an oracle
`refreshO : Nat → Except Unit TokenResponse` (the authorization response
to the `k`-th token request of this call).  These functions model a
single-caller run; concurrency is treated by `rstep` above. -/

/-- A raised error of `sendEmail`: a propagated token-acquisition error
(`auth`) or the terminal throw (`request`), which carries the last status,
its status text and the body excerpt `body.slice(0, 300)`. -/
inductive SendError where
  | auth (msg : String)
  | request (status : Nat) (statusText : String) (bodyExcerpt : String)
deriving DecidableEq, Repr

/-- An observable trace of one `sendEmail` call: how many `forceRefresh`
calls the 401-reauth branch performed (including any performed by the
`getAccessToken` directly after it), the bearer token attached to each
attempt in order, the backoff delays slept in order, the status of the
last response observed, and the outcome. -/
structure SendTrace where
  reauthRefreshes : Nat
  attemptTokens : List String
  delays : List Nat
  lastStatus : Nat
  result : Except SendError Bool
deriving DecidableEq, Repr

/-- The guard of the fetch variant's retry loop:
`!resp.ok && (resp.status === 429 || resp.status >= 500) && retries < this.maxRetries`. -/
def retryCondFetch (status retries maxRetries : Nat) : Bool :=
  !(respOk status) && (status == 429 || decide (500 ≤ status)) && decide (retries < maxRetries)

/-- The guard of the axios variant's retry loop:
`resp.status !== 202 && (resp.status === 429 || resp.status >= 500) && retries < this.maxRetries`. -/
def retryCondAxios (status retries maxRetries : Nat) : Bool :=
  status != 202 && (status == 429 || decide (500 ≤ status)) && decide (retries < maxRetries)

/-- The fetch variant's `while` loop, compiled to recursion on the
remaining retry budget `fuel = maxRetries - retries` (the loop guard's
`retries < maxRetries` is exactly `0 < fuel` and each iteration increments
`retries` while decrementing `fuel`).  `idx` is the index the next attempt
would use in `attemptO`.  Returns the final response, the list of backoff
delays slept, and the number of retries performed. -/
def goFetch (attemptO : Nat → HttpResp) (idx : Nat) (resp : HttpResp)
    (retries fuel : Nat) : HttpResp × List Nat × Nat :=
  match fuel with
  | 0 => (resp, [], 0)
  | fuel' + 1 =>
    if !(respOk resp.status) && (resp.status == 429 || decide (500 ≤ resp.status)) then
      let backoff := 200 * 2 ^ retries
      let rest := goFetch attemptO (idx + 1) (attemptO idx) (retries + 1) fuel'
      (rest.1, backoff :: rest.2.1, rest.2.2 + 1)
    else
      (resp, [], 0)

/-- The axios variant's `while` loop, same compilation. -/
def goAxios (attemptO : Nat → HttpResp) (idx : Nat) (resp : HttpResp)
    (retries fuel : Nat) : HttpResp × List Nat × Nat :=
  match fuel with
  | 0 => (resp, [], 0)
  | fuel' + 1 =>
    if resp.status != 202 && (resp.status == 429 || decide (500 ≤ resp.status)) then
      let backoff := 200 * 2 ^ retries
      let rest := goAxios attemptO (idx + 1) (attemptO idx) (retries + 1) fuel'
      (rest.1, backoff :: rest.2.1, rest.2.2 + 1)
    else
      (resp, [], 0)

/-- What the part of `sendEmail` before the retry loop computed: the
reauth-branch refresh count, the tokens of the attempts already made, the
index the next attempt would use, the current response and the token the
loop will reuse. -/
structure PreOut where
  reauth : Nat
  toks : List String
  nextIdx : Nat
  resp : HttpResp
  tok : String
deriving DecidableEq, Repr

/-- The fetch variant's `sendEmail` up to (not including) the retry loop:
initial `getAccessToken`, first attempt, and the 401-reauth branch
(`forceRefresh` then `getAccessToken` then one more attempt).  An
`Except.error` is a propagated token-acquisition error, paired with the
reauth-refresh count and the attempt tokens so far. -/
def preLoopFetch (cred0 : Cred) (now graceMs : Nat)
    (refreshO : Nat → Except Unit TokenResponse) (attemptO : Nat → HttpResp) :
    Except (Nat × List String × String) PreOut :=
  let g0 := getAccessTokenOnce cred0 now graceMs (refreshO 0)
  match g0.2.2 with
  | .error e => .error (0, [], e)
  | .ok t0 =>
    let resp0 := attemptO 0
    if resp0.status == 401 then
      let u := updateAccessToken g0.1 now (refreshO g0.2.1)
      match u.2 with
      | .error e => .error (1, [t0], e)
      | .ok _ =>
        let g1 := getAccessTokenOnce u.1 now graceMs (refreshO (g0.2.1 + 1))
        match g1.2.2 with
        | .error e => .error (1 + g1.2.1, [t0], e)
        | .ok t1 =>
          .ok { reauth := 1 + g1.2.1, toks := [t0, t1], nextIdx := 2,
                resp := attemptO 1, tok := t1 }
    else
      .ok { reauth := 0, toks := [t0], nextIdx := 1, resp := resp0, tok := t0 }

/-- The fetch variant's retry loop plus final check, from a `PreOut`. -/
def finishFetch (attemptO : Nat → HttpResp) (maxRetries : Nat) (p : PreOut) : SendTrace :=
  let lp := goFetch attemptO p.nextIdx p.resp 0 maxRetries
  { reauthRefreshes := p.reauth,
    attemptTokens := p.toks ++ List.replicate lp.2.2 p.tok,
    delays := lp.2.1,
    lastStatus := lp.1.status,
    result :=
      if respOk lp.1.status then .ok true
      else .error (.request lp.1.status lp.1.statusText (sliceStr lp.1.body 300)) }

/-- The whole post-validation `sendEmail` of the fetch variant. -/
def sendEmailFetchM (cred0 : Cred) (now graceMs maxRetries : Nat)
    (refreshO : Nat → Except Unit TokenResponse) (attemptO : Nat → HttpResp) : SendTrace :=
  match preLoopFetch cred0 now graceMs refreshO attemptO with
  | .error (r, toks, e) =>
    { reauthRefreshes := r, attemptTokens := toks, delays := [],
      lastStatus := 0, result := .error (.auth e) }
  | .ok p => finishFetch attemptO maxRetries p

/-- The axios variant's `sendEmail` up to the retry loop.  The reauth
branch is only `await this.forceRefresh(); resp = await attempt();` — no
second `getAccessToken`.  The bearer token of an attempt is the default
header, i.e. the credential's token at attempt time. -/
def preLoopAxios (cred0 : Cred) (now graceMs : Nat)
    (refreshO : Nat → Except Unit TokenResponse) (attemptO : Nat → HttpResp) :
    Except (Nat × List String × String) PreOut :=
  let g0 := getAccessTokenOnce cred0 now graceMs (refreshO 0)
  match g0.2.2 with
  | .error e => .error (0, [], e)
  | .ok _ =>
    let resp0 := attemptO 0
    if resp0.status == 401 then
      let u := updateAccessToken g0.1 now (refreshO g0.2.1)
      match u.2 with
      | .error e => .error (1, [g0.1.token], e)
      | .ok _ =>
        .ok { reauth := 1, toks := [g0.1.token, u.1.token], nextIdx := 2,
              resp := attemptO 1, tok := u.1.token }
    else
      .ok { reauth := 0, toks := [g0.1.token], nextIdx := 1, resp := resp0, tok := g0.1.token }

/-- The axios variant's retry loop plus final check
(`resp.status < 200 || resp.status >= 300` throws, else `return true`). -/
def finishAxios (attemptO : Nat → HttpResp) (maxRetries : Nat) (p : PreOut) : SendTrace :=
  let lp := goAxios attemptO p.nextIdx p.resp 0 maxRetries
  { reauthRefreshes := p.reauth,
    attemptTokens := p.toks ++ List.replicate lp.2.2 p.tok,
    delays := lp.2.1,
    lastStatus := lp.1.status,
    result :=
      if respOk lp.1.status then .ok true
      else .error (.request lp.1.status lp.1.statusText (sliceStr lp.1.body 300)) }

/-- The whole post-validation `sendEmail` of the axios variant. -/
def sendEmailAxiosM (cred0 : Cred) (now graceMs maxRetries : Nat)
    (refreshO : Nat → Except Unit TokenResponse) (attemptO : Nat → HttpResp) : SendTrace :=
  match preLoopAxios cred0 now graceMs refreshO attemptO with
  | .error (r, toks, e) =>
    { reauthRefreshes := r, attemptTokens := toks, delays := [],
      lastStatus := 0, result := .error (.auth e) }
  | .ok p => finishAxios attemptO maxRetries p

/-! ## ping (fetch variant only)

```
async ping() {
  const token = await this.getAccessToken();
  const resp = await this._fetchWithTimeout(...);
  return resp.ok;
}
```
One attempt, no 401 handling, no retry loop; the boolean `resp.ok` is
returned, errors of `getAccessToken` or of the fetch itself propagate. -/

/-- The trace of one `ping()` call: outcome, number of API attempts
performed, number of token requests issued. -/
structure PingTrace where
  result : Except String Bool
  attempts : Nat
  refreshes : Nat
deriving DecidableEq, Repr

/-- The method `ping()`.  Here `apiResp` is the fetch result of the single
API attempt (`Except.error ()` models a thrown transport error). -/
def pingM (cred0 : Cred) (now graceMs : Nat) (refreshO : Except Unit TokenResponse)
    (apiResp : Except Unit HttpResp) : PingTrace :=
  let g := getAccessTokenOnce cred0 now graceMs refreshO
  match g.2.2 with
  | .error e => { result := .error e, attempts := 0, refreshes := g.2.1 }
  | .ok _ =>
    match apiResp with
    | .error _ => { result := .error "timeout", attempts := 1, refreshes := g.2.1 }
    | .ok r => { result := .ok (respOk r.status), attempts := 1, refreshes := g.2.1 }

/-! ## Concrete scenarios used to instantiate the theorems -/

/-- A credential that is not stale at time `0` with a `5000` ms grace
window. -/
def freshCred : Cred := { token := "tok", expiresAt := 10000000 }

/-- A response with the given status and empty text and body. -/
def mkResp (s : Nat) : HttpResp := { status := s, statusText := "", body := "" }

/-- A 2xx authorization response carrying the given token and lifetime. -/
def tokOk (t : String) (e : Nat) : Except Unit TokenResponse :=
  .ok { status := 200, statusText := "", access_token := t, expires_in := e }

/-- A refresh oracle that always throws (never consulted in scenarios whose
credential is fresh and whose attempts avoid 401). -/
def errRefreshO : Nat → Except Unit TokenResponse := fun _ => .error ()

/-- An authorization response with 2xx status but no `access_token`. -/
def noTokenResp : Except Unit TokenResponse :=
  .ok { status := 200, statusText := "", access_token := "", expires_in := 3600 }

/-- Attempts for the transient-retry scenario: 429, then 500, then 400. -/
def c4AttemptO : Nat → HttpResp :=
  fun k => if k == 0 then mkResp 429 else if k == 1 then mkResp 500 else mkResp 400

/-- Attempts for the reauth scenario: 401 first, then 202. -/
def c5AttemptO : Nat → HttpResp :=
  fun k => if k == 0 then mkResp 401 else mkResp 202

/-- Refreshes for the reauth scenario: the forced refresh returns a token
whose 1-second lifetime lies inside the 5000 ms grace window, the next
refresh returns a normal one-hour token. -/
def c5RefreshO : Nat → Except Unit TokenResponse :=
  fun k => if k == 0 then tokOk "t1" 1 else tokOk "t2" 3600

/-- Refreshes that always return a normal one-hour token. -/
def c5wRefreshO : Nat → Except Unit TokenResponse := fun _ => tokOk "t9" 3600

/-- Attempts for the 401-inside-the-loop scenario: 500 first, then 401. -/
def c6AttemptO : Nat → HttpResp :=
  fun k => if k == 0 then mkResp 500 else mkResp 401

/-- Attempts that always return the given status. -/
def constAttemptO (s : Nat) : Nat → HttpResp := fun _ => mkResp s

/-- The final outcome of the fetch variant's `sendEmail` when every
attempt returns status `s`, under a fresh credential and the default
configuration (`graceMs = 5000`, `maxRetries = 2`). -/
def fetchOutcomeAt (s : Nat) : Except SendError Bool :=
  (sendEmailFetchM freshCred 0 5000 2 errRefreshO (constAttemptO s)).result

/-- The final outcome of the axios variant's `sendEmail` in the same
scenario. -/
def axiosOutcomeAt (s : Nat) : Except SendError Bool :=
  (sendEmailAxiosM freshCred 0 5000 2 errRefreshO (constAttemptO s)).result

/-! ## Theorems -/

lemma mustRenew_eq_true_iff (c : Cred) (now graceMs : Nat) :
    mustRenew c now graceMs = true ↔ specStale c now graceMs := by
  simp [mustRenew, specStale, ge_iff_le, or_assoc]

/-- C2: `getAccessToken()` returns the cached token with no network I/O
exactly when the credential is not stale in the spec's sense (token empty,
or expiry unset, or `now + graceMs ≥ expiresAt`), and otherwise delegates
to `forceRefresh()`. -/
theorem c2_staleness_rule (c : Cred) (now graceMs : Nat) :
    (getAccessTokenAction c now graceMs = .cached c.token ↔ ¬ specStale c now graceMs)
    ∧ (getAccessTokenAction c now graceMs = .refresh ↔ specStale c now graceMs) := by
  by_cases hs : specStale c now graceMs
  · have hb : mustRenew c now graceMs = true := (mustRenew_eq_true_iff c now graceMs).mpr hs
    simp [getAccessTokenAction, hb, hs]
  · have hb : mustRenew c now graceMs = false := by
      cases h : mustRenew c now graceMs
      · rfl
      · exact absurd ((mustRenew_eq_true_iff c now graceMs).mp h) hs
    simp [getAccessTokenAction, hb, hs]

/-- Case analysis of `_updateAccessToken`: either it throws and leaves the
credential exactly as it was, or the fetched response was 2xx with both
fields present and the credential is replaced, token and expiry together. -/
lemma updateAccessToken_cases (c : Cred) (now : Nat) (fetched : Except Unit TokenResponse) :
    (updateAccessToken c now fetched).1 = c ∨
    ∃ resp : TokenResponse, fetched = Except.ok resp ∧ respOk resp.status = true ∧
      resp.access_token ≠ "" ∧ resp.expires_in ≠ 0 ∧
      (updateAccessToken c now fetched).1 =
        { token := resp.access_token, expiresAt := now + resp.expires_in * 1000 } := by
  cases fetched with
  | error u => exact Or.inl rfl
  | ok resp =>
    by_cases h1 : respOk resp.status = true
    · by_cases h2 : (resp.access_token == "" || resp.expires_in == 0) = true
      · left
        simp [updateAccessToken, h1, h2]
      · right
        have h2' : ¬(resp.access_token = "" ∨ resp.expires_in = 0) := by
          simpa using h2
        refine ⟨resp, rfl, h1, ?_, ?_, ?_⟩
        · exact fun h => h2' (Or.inl h)
        · exact fun h => h2' (Or.inr h)
        · simp [updateAccessToken, h1, h2]
    · left
      have h1' : respOk resp.status = false := by
        cases h : respOk resp.status
        · rfl
        · exact absurd h h1
      simp [updateAccessToken, h1']

/-- The pairing invariant is preserved by every reachable credential. -/
lemma reachableCred_inv (c : Cred) (h : ReachableCred c) :
    (c.token ≠ "" ↔ c.expiresAt ≠ 0) := by
  induction h with
  | init => simp [initCred]
  | refresh c now fetched _ ih =>
    rcases updateAccessToken_cases c now fetched with heq | ⟨resp, _, _, ht, he, heq⟩
    · rw [heq]; exact ih
    · rw [heq]
      show resp.access_token ≠ "" ↔ now + resp.expires_in * 1000 ≠ 0
      constructor
      · intro _; omega
      · intro _; exact ht

/-- C8: in every reachable credential state the token is non-empty iff the
expiry is nonzero; the pair starts as `("", 0)` at construction; and the
only mutation, `_updateAccessToken`, either leaves the pair untouched or
replaces token and expiry together from a successful 2xx response with
both fields present. -/
theorem c8_credential_pairing (c : Cred) (h : ReachableCred c) :
    (initCred.token = "" ∧ initCred.expiresAt = 0)
    ∧ (c.token ≠ "" ↔ c.expiresAt ≠ 0)
    ∧ (∀ (now : Nat) (fetched : Except Unit TokenResponse),
        (updateAccessToken c now fetched).1 = c ∨
        ∃ resp : TokenResponse, fetched = Except.ok resp ∧ respOk resp.status = true ∧
          resp.access_token ≠ "" ∧ resp.expires_in ≠ 0 ∧
          (updateAccessToken c now fetched).1 =
            { token := resp.access_token, expiresAt := now + resp.expires_in * 1000 }) :=
  ⟨⟨rfl, rfl⟩, reachableCred_inv c h, fun now fetched => updateAccessToken_cases c now fetched⟩

/-- Witness for `c8_credential_pairing` at the constructed state. -/
theorem c8_credential_pairing_witness :
    (initCred.token ≠ "" ↔ initCred.expiresAt ≠ 0) :=
  (c8_credential_pairing initCred ReachableCred.init).2.1

lemma rrun_nil (s : RefreshState) : rrun s [] = s := rfl

lemma rrun_cons (s : RefreshState) (e : REvent) (es : List REvent) :
    rrun s (e :: es) = rrun (rstep s e) es := rfl

/-- Calls of `forceRefresh` made while a refresh is in flight only append
to the waiters of the shared promise: no token request is issued, nothing
else changes. -/
lemma rrun_calls_inflight (cs : List CallerId) :
    ∀ s : RefreshState, s.inflight = true →
      rrun s (cs.map REvent.call) = { s with waiters := s.waiters ++ cs } := by
  induction cs with
  | nil => intro s _; simp [rrun]
  | cons c cs ih =>
    intro s hs
    rw [List.map_cons, rrun_cons]
    have hstep : rstep s (.call c) = { s with waiters := s.waiters ++ [c] } := by
      simp [rstep, hs]
    rw [hstep, ih _ (by simp [hs])]
    simp

/-- C1: for every group of callers that invoke `forceRefresh` (directly,
or through `getAccessToken` on an empty or stale cache) while no refresh
is in flight, exactly one token request is issued to the authorization
endpoint — the first caller starts it, every later caller joins it as a
waiter — and when it settles, every caller of the group is delivered the
one shared outcome: the same token on success, the same error on
failure. -/
theorem c1_single_flight_refresh (s0 : RefreshState) (cs : List CallerId)
    (h0 : s0.inflight = false) (hne : cs ≠ []) :
    (rrun s0 (cs.map REvent.call)).requestsIssued = s0.requestsIssued + 1
    ∧ (rrun s0 (cs.map REvent.call)).inflight = true
    ∧ (rrun s0 (cs.map REvent.call)).waiters = cs
    ∧ (rrun s0 (cs.map REvent.call)).cred = s0.cred
    ∧ ∀ (now : Nat) (fetched : Except Unit TokenResponse), ∀ c ∈ cs,
        (c, (updateAccessToken s0.cred now fetched).2)
          ∈ (rstep (rrun s0 (cs.map REvent.call)) (.settle now fetched)).results := by
  cases cs with
  | nil => exact absurd rfl hne
  | cons c0 cs' =>
    have hstep : rstep s0 (.call c0) =
        { s0 with inflight := true, requestsIssued := s0.requestsIssued + 1,
                  waiters := [c0] } := by
      simp [rstep, h0]
    have hrun : rrun s0 ((c0 :: cs').map REvent.call) =
        { s0 with inflight := true, requestsIssued := s0.requestsIssued + 1,
                  waiters := c0 :: cs' } := by
      rw [List.map_cons, rrun_cons, hstep, rrun_calls_inflight cs' _ rfl]
      simp
    refine ⟨by rw [hrun], by rw [hrun], by rw [hrun], by rw [hrun], ?_⟩
    intro now fetched c hc
    rw [hrun]
    show (c, (updateAccessToken s0.cred now fetched).2)
        ∈ s0.results
          ++ (c0 :: cs').map (fun w => (w, (updateAccessToken s0.cred now fetched).2))
    exact List.mem_append_right _ (List.mem_map.mpr ⟨c, hc, rfl⟩)

/-- Witness for `c1_single_flight_refresh`: three callers arrive at the
freshly constructed client; one token request is issued. -/
theorem c1_single_flight_refresh_witness :
    initRefreshState.inflight = false
    ∧ ([0, 1, 2] : List CallerId) ≠ []
    ∧ (rrun initRefreshState (([0, 1, 2] : List CallerId).map REvent.call)).requestsIssued
        = initRefreshState.requestsIssued + 1 :=
  ⟨rfl, by decide, (c1_single_flight_refresh initRefreshState [0, 1, 2] rfl (by decide)).1⟩

/-- On every failing authorization response, `_updateAccessToken` throws
and leaves the credential exactly as it was. -/
lemma updateAccessToken_fails (fetched : Except Unit TokenResponse)
    (hf : refreshFails fetched) (c : Cred) (now : Nat) :
    ∃ msg, updateAccessToken c now fetched = (c, .error msg) := by
  cases fetched with
  | error u => exact ⟨"timeout", rfl⟩
  | ok resp =>
    have hf' : respOk resp.status = false ∨ resp.access_token = "" ∨ resp.expires_in = 0 := hf
    by_cases h1 : respOk resp.status = true
    · have h2 : (resp.access_token == "" || resp.expires_in == 0) = true := by
        rcases hf' with h | h | h
        · rw [h] at h1; exact absurd h1 (by simp)
        · simp [h]
        · simp [h]
      exact ⟨"Couldnt get access_token from Flowmailer", by simp [updateAccessToken, h1, h2]⟩
    · have h1' : respOk resp.status = false := by
        cases hx : respOk resp.status
        · rfl
        · exact absurd hx h1
      exact ⟨"Token fetch error: " ++ toString resp.status ++ " " ++ resp.statusText,
        by simp [updateAccessToken, h1']⟩

/-- C3: on every failed token acquisition (timeout, non-2xx status, or a
missing `access_token` / `expires_in` field) `_updateAccessToken` throws
and the cached token and expiry are left exactly as they were; the settle
step clears the in-flight marker and delivers that same error to every
waiter; and a `forceRefresh` call arriving after the settle issues a fresh
token request instead of observing a stale marker. -/
theorem c3_refresh_failure_atomicity (fetched : Except Unit TokenResponse)
    (hf : refreshFails fetched) (cred : Cred) (now : Nat) :
    ∃ msg,
      updateAccessToken cred now fetched = (cred, .error msg)
      ∧ ∀ s : RefreshState, s.inflight = true → s.cred = cred →
          (rstep s (.settle now fetched)).cred = cred
          ∧ (rstep s (.settle now fetched)).inflight = false
          ∧ (∀ w ∈ s.waiters,
              (w, (Except.error msg : Except String String))
                ∈ (rstep s (.settle now fetched)).results)
          ∧ ∀ c : CallerId,
              (rstep (rstep s (.settle now fetched)) (.call c)).requestsIssued
                = (rstep s (.settle now fetched)).requestsIssued + 1 := by
  obtain ⟨msg, hmsg⟩ := updateAccessToken_fails fetched hf cred now
  refine ⟨msg, hmsg, ?_⟩
  intro s hs hcred
  have hstep : rstep s (.settle now fetched) =
      { s with cred := cred, inflight := false, waiters := [],
               results := s.results ++ s.waiters.map (fun w => (w, .error msg)) } := by
    simp [rstep, hs, hcred, hmsg]
  refine ⟨by rw [hstep], by rw [hstep], ?_, ?_⟩
  · intro w hw
    rw [hstep]
    exact List.mem_append_right _ (List.mem_map.mpr ⟨w, hw, rfl⟩)
  · intro c
    rw [hstep]
    rfl

/-- Witness for `c3_refresh_failure_atomicity`: a 2xx authorization
response with no `access_token` leaves the empty credential unchanged and
raises an error. -/
theorem c3_refresh_failure_atomicity_witness :
    refreshFails noTokenResp
    ∧ ∃ msg, updateAccessToken initCred 0 noTokenResp = (initCred, .error msg) :=
  ⟨by decide, by
    obtain ⟨msg, hmsg, _⟩ := c3_refresh_failure_atomicity noTokenResp (by decide) initCred 0
    exact ⟨msg, hmsg⟩⟩

/-- The fetch loop guard (without the budget conjunct) holds exactly for
a 429 or 5xx status. -/
lemma retryable_cond_fetch (s : Nat) :
    (!(respOk s) && (s == 429 || decide (500 ≤ s))) = true ↔ (s = 429 ∨ 500 ≤ s) := by
  simp only [respOk, Bool.and_eq_true, Bool.or_eq_true, Bool.not_eq_true', Bool.and_eq_false_iff,
    decide_eq_true_eq, decide_eq_false_iff_not, beq_iff_eq, not_le, not_lt]
  omega

/-- The axios loop guard (without the budget conjunct) holds exactly for
a 429 or 5xx status as well: its `!== 202` conjunct is implied by the
429-or-5xx disjunct. -/
lemma retryable_cond_axios (s : Nat) :
    (s != 202 && (s == 429 || decide (500 ≤ s))) = true ↔ (s = 429 ∨ 500 ≤ s) := by
  simp only [Bool.and_eq_true, Bool.or_eq_true, bne_iff_ne, Ne, decide_eq_true_eq, beq_iff_eq]
  omega

/-- The loop performs at most `fuel` retries. -/
lemma goFetch_retries_le (attemptO : Nat → HttpResp) :
    ∀ (fuel idx retries : Nat) (resp : HttpResp),
      (goFetch attemptO idx resp retries fuel).2.2 ≤ fuel := by
  intro fuel
  induction fuel with
  | zero => intro idx retries resp; simp [goFetch]
  | succ f ih =>
    intro idx retries resp
    simp only [goFetch]
    split
    · exact Nat.succ_le_succ (ih (idx + 1) (retries + 1) (attemptO idx))
    · exact Nat.zero_le _

/-- The loop sleeps exactly one delay per retry. -/
lemma goFetch_delays_length (attemptO : Nat → HttpResp) :
    ∀ (fuel idx retries : Nat) (resp : HttpResp),
      (goFetch attemptO idx resp retries fuel).2.1.length
        = (goFetch attemptO idx resp retries fuel).2.2 := by
  intro fuel
  induction fuel with
  | zero => intro idx retries resp; simp [goFetch]
  | succ f ih =>
    intro idx retries resp
    simp only [goFetch]
    split
    · simp [ih (idx + 1) (retries + 1) (attemptO idx)]
    · rfl

lemma range_pow_shift (r n : Nat) :
    (List.range (n + 1)).map (fun k => 200 * 2 ^ (r + k))
      = 200 * 2 ^ r :: (List.range n).map (fun k => 200 * 2 ^ ((r + 1) + k)) := by
  rw [List.range_succ_eq_map]
  simp only [List.map_cons, List.map_map, Nat.add_zero]
  refine congrArg _ (List.map_congr_left ?_)
  intro a _
  show 200 * 2 ^ (r + (a + 1)) = 200 * 2 ^ ((r + 1) + a)
  have hra : r + (a + 1) = (r + 1) + a := by omega
  rw [hra]

/-- The delays slept by the loop, entered with retry counter `r`, are
`200 * 2 ^ r, 200 * 2 ^ (r + 1), ...`, one per retry performed. -/
lemma goFetch_delays_shape (attemptO : Nat → HttpResp) :
    ∀ (fuel idx r : Nat) (resp : HttpResp),
      (goFetch attemptO idx resp r fuel).2.1
        = (List.range (goFetch attemptO idx resp r fuel).2.2).map
            (fun k => 200 * 2 ^ (r + k)) := by
  intro fuel
  induction fuel with
  | zero => intro idx r resp; simp [goFetch]
  | succ f ih =>
    intro idx r resp
    simp only [goFetch]
    split
    · rw [range_pow_shift]
      exact congrArg _ (ih (idx + 1) (r + 1) (attemptO idx))
    · simp

/-- Specialization to a loop entered with retry counter `0`, as
`sendEmail` always enters it: the `k`-th delay is `200 * 2 ^ k`. -/
lemma goFetch_delays_zero (attemptO : Nat → HttpResp) (fuel idx : Nat) (resp : HttpResp) :
    (goFetch attemptO idx resp 0 fuel).2.1
      = (List.range (goFetch attemptO idx resp 0 fuel).2.2).map (fun k => 200 * 2 ^ k) := by
  rw [goFetch_delays_shape]
  exact List.map_congr_left (fun a _ => by rw [Nat.zero_add])

lemma chain_lt_pow (n : Nat) :
    List.Chain' (· < ·) ((List.range n).map (fun k => 200 * 2 ^ k)) := by
  rw [List.chain'_map]
  refine (List.pairwise_lt_range n).chain'.imp ?_
  intro a b h
  exact mul_lt_mul_of_pos_left (Nat.pow_lt_pow_right (by norm_num) h) (by norm_num)

/-- The loop retries at least once iff the entering status is 429 or 5xx
and there is budget left. -/
lemma goFetch_pos_iff (attemptO : Nat → HttpResp) (idx retries fuel : Nat) (resp : HttpResp) :
    0 < (goFetch attemptO idx resp retries fuel).2.2
      ↔ ((resp.status = 429 ∨ 500 ≤ resp.status) ∧ 0 < fuel) := by
  cases fuel with
  | zero => simp [goFetch]
  | succ f =>
    simp only [goFetch]
    split
    · next hc =>
      simp only [Nat.succ_pos, true_iff]
      exact ⟨(retryable_cond_fetch resp.status).mp hc, trivial⟩
    · next hc =>
      simp only [Nat.lt_irrefl, false_iff, not_and]
      intro hr
      exact absurd ((retryable_cond_fetch resp.status).mpr hr) (by simp_all)

/-- A 401 response terminates the loop at once: it is not a retryable
status, so no delay is slept and no further attempt is made. -/
lemma goFetch_401 (attemptO : Nat → HttpResp) (idx retries fuel : Nat) (resp : HttpResp)
    (h : resp.status = 401) :
    goFetch attemptO idx resp retries fuel = (resp, [], 0) := by
  cases fuel with
  | zero => rfl
  | succ f =>
    simp only [goFetch]
    rw [if_neg]
    intro hc
    rcases (retryable_cond_fetch resp.status).mp hc with h429 | h500 <;> omega

/-- The two variants' retry loops are extensionally equal: their guards
differ textually (`!resp.ok` against `resp.status !== 202`) but both are
equivalent to the 429-or-5xx test. -/
lemma goFetch_eq_goAxios (attemptO : Nat → HttpResp) :
    ∀ (fuel idx retries : Nat) (resp : HttpResp),
      goFetch attemptO idx resp retries fuel = goAxios attemptO idx resp retries fuel := by
  intro fuel
  induction fuel with
  | zero => intro idx retries resp; rfl
  | succ f ih =>
    intro idx retries resp
    simp only [goFetch, goAxios]
    have hguard : (!(respOk resp.status) && (resp.status == 429 || decide (500 ≤ resp.status)))
        = (resp.status != 202 && (resp.status == 429 || decide (500 ≤ resp.status))) := by
      by_cases h : (resp.status = 429 ∨ 500 ≤ resp.status)
      · rw [(retryable_cond_fetch resp.status).mpr h, (retryable_cond_axios resp.status).mpr h]
      · rw [Bool.eq_false_iff.mpr (fun hc => h ((retryable_cond_fetch resp.status).mp hc)),
            Bool.eq_false_iff.mpr (fun hc => h ((retryable_cond_axios resp.status).mp hc))]
    rw [hguard, ih (idx + 1) (retries + 1) (attemptO idx)]

lemma sliceStr_eq_take (s : String) (n : Nat) : sliceStr s n = s.take n :=
  (String.take_eq s n).symm

lemma sliceStr_length_le (s : String) (n : Nat) : (sliceStr s n).length ≤ n := by
  show (s.data.take n).length ≤ n
  rw [List.length_take]
  omega

/-- A `sendEmail` call either propagates a token-acquisition error before
reaching the retry loop, or runs the loop and final check on what the
pre-loop phase produced. -/
lemma sendEmailFetchM_shape (cred0 : Cred) (now graceMs maxRetries : Nat)
    (refreshO : Nat → Except Unit TokenResponse) (attemptO : Nat → HttpResp) :
    (∃ r toks e, sendEmailFetchM cred0 now graceMs maxRetries refreshO attemptO =
        { reauthRefreshes := r, attemptTokens := toks, delays := [], lastStatus := 0,
          result := .error (.auth e) }) ∨
    (∃ p : PreOut, preLoopFetch cred0 now graceMs refreshO attemptO = .ok p ∧
        sendEmailFetchM cred0 now graceMs maxRetries refreshO attemptO
          = finishFetch attemptO maxRetries p) := by
  unfold sendEmailFetchM
  cases h : preLoopFetch cred0 now graceMs refreshO attemptO with
  | error t =>
    obtain ⟨r, toks, e⟩ := t
    exact Or.inl ⟨r, toks, e, rfl⟩
  | ok p => exact Or.inr ⟨p, rfl, rfl⟩

lemma finishFetch_delays (attemptO : Nat → HttpResp) (maxRetries : Nat) (p : PreOut) :
    (finishFetch attemptO maxRetries p).delays
      = (goFetch attemptO p.nextIdx p.resp 0 maxRetries).2.1 := rfl

lemma finishFetch_lastStatus (attemptO : Nat → HttpResp) (maxRetries : Nat) (p : PreOut) :
    (finishFetch attemptO maxRetries p).lastStatus
      = (goFetch attemptO p.nextIdx p.resp 0 maxRetries).1.status := rfl

lemma finishFetch_reauth (attemptO : Nat → HttpResp) (maxRetries : Nat) (p : PreOut) :
    (finishFetch attemptO maxRetries p).reauthRefreshes = p.reauth := rfl

lemma finishFetch_tokens (attemptO : Nat → HttpResp) (maxRetries : Nat) (p : PreOut) :
    (finishFetch attemptO maxRetries p).attemptTokens
      = p.toks ++ List.replicate (goFetch attemptO p.nextIdx p.resp 0 maxRetries).2.2 p.tok := rfl

/-- On a terminal non-2xx final response the result is the `request`
error built from that response. -/
lemma finishFetch_result_error (attemptO : Nat → HttpResp) (maxRetries : Nat) (p : PreOut)
    (st : Nat) (tx bx : String)
    (h : (finishFetch attemptO maxRetries p).result = .error (.request st tx bx)) :
    st = (goFetch attemptO p.nextIdx p.resp 0 maxRetries).1.status
    ∧ tx = (goFetch attemptO p.nextIdx p.resp 0 maxRetries).1.statusText
    ∧ bx = sliceStr (goFetch attemptO p.nextIdx p.resp 0 maxRetries).1.body 300 := by
  have h' : (if respOk (goFetch attemptO p.nextIdx p.resp 0 maxRetries).1.status then
        (Except.ok true : Except SendError Bool)
      else .error (.request (goFetch attemptO p.nextIdx p.resp 0 maxRetries).1.status
        (goFetch attemptO p.nextIdx p.resp 0 maxRetries).1.statusText
        (sliceStr (goFetch attemptO p.nextIdx p.resp 0 maxRetries).1.body 300)))
      = .error (.request st tx bx) := h
  split at h'
  · exact absurd h' (by simp)
  · simp only [Except.error.injEq, SendError.request.injEq] at h'
    exact ⟨h'.1.symm, h'.2.1.symm, h'.2.2.symm⟩

/-- C4: in the fetch variant's `sendEmail`, the `k`-th backoff delay is
`200 * 2 ^ k` (so `200, 400, 800, ...`), delays strictly increase, at most
`maxRetries` retries happen, a retry happens exactly when the status is
429 or at least 500 and budget remains (any other non-success status, such
as 400, triggers none), and a terminal `request` error carries the last
observed status, its status text and a body excerpt of at most 300
characters. -/
theorem c4_transient_retry_policy (cred0 : Cred) (now graceMs maxRetries : Nat)
    (refreshO : Nat → Except Unit TokenResponse) (attemptO : Nat → HttpResp) :
    ((sendEmailFetchM cred0 now graceMs maxRetries refreshO attemptO).delays
        = (List.range
            (sendEmailFetchM cred0 now graceMs maxRetries refreshO attemptO).delays.length).map
            (fun k => 200 * 2 ^ k))
    ∧ List.Chain' (· < ·)
        (sendEmailFetchM cred0 now graceMs maxRetries refreshO attemptO).delays
    ∧ (sendEmailFetchM cred0 now graceMs maxRetries refreshO attemptO).delays.length
        ≤ maxRetries
    ∧ (∀ (idx : Nat) (resp : HttpResp),
        0 < (goFetch attemptO idx resp 0 maxRetries).2.2
          ↔ ((resp.status = 429 ∨ 500 ≤ resp.status) ∧ 0 < maxRetries))
    ∧ (∀ (st : Nat) (tx bx : String),
        (sendEmailFetchM cred0 now graceMs maxRetries refreshO attemptO).result
            = .error (.request st tx bx) →
          st = (sendEmailFetchM cred0 now graceMs maxRetries refreshO attemptO).lastStatus
          ∧ bx.length ≤ 300) := by
  rcases sendEmailFetchM_shape cred0 now graceMs maxRetries refreshO attemptO with
    ⟨r, toks, e, heq⟩ | ⟨p, _, heq⟩
  · rw [heq]
    refine ⟨by simp, by simp, by simp, ?_, ?_⟩
    · intro idx resp
      exact goFetch_pos_iff attemptO idx 0 maxRetries resp
    · intro st tx bx h
      exact absurd h (by simp)
  · rw [heq]
    refine ⟨?_, ?_, ?_, ?_, ?_⟩
    · rw [finishFetch_delays, goFetch_delays_length, goFetch_delays_zero]
    · rw [finishFetch_delays, goFetch_delays_zero]
      exact chain_lt_pow _
    · rw [finishFetch_delays, goFetch_delays_length]
      exact goFetch_retries_le attemptO maxRetries p.nextIdx 0 p.resp
    · intro idx resp
      exact goFetch_pos_iff attemptO idx 0 maxRetries resp
    · intro st tx bx h
      obtain ⟨h1, _, h3⟩ := finishFetch_result_error attemptO maxRetries p st tx bx h
      refine ⟨?_, ?_⟩
      · rw [finishFetch_lastStatus]; exact h1
      · rw [h3]; exact sliceStr_length_le _ 300

/-- Witness for `c4_transient_retry_policy`: attempts 429, 500, 400 with
`maxRetries = 2` sleep 200 then 400 and end in a terminal 400 error. -/
theorem c4_transient_retry_policy_witness :
    (sendEmailFetchM freshCred 0 5000 2 errRefreshO c4AttemptO).delays = [200, 400]
    ∧ (sendEmailFetchM freshCred 0 5000 2 errRefreshO c4AttemptO).result
        = .error (.request 400 "" "")
    ∧ (400 = (sendEmailFetchM freshCred 0 5000 2 errRefreshO c4AttemptO).lastStatus
        ∧ ("" : String).length ≤ 300) :=
  ⟨by decide, by decide,
    (c4_transient_retry_policy freshCred 0 5000 2 errRefreshO c4AttemptO).2.2.2.2
      400 "" "" (by decide)⟩

/-- C5 fails on the code: when the first attempt returns 401 and the
forced refresh hands back a token whose lifetime (1 s here) lies inside
the grace window (5000 ms), the `getAccessToken()` that `sendEmail` calls
right after `forceRefresh()` finds the fresh credential already stale and
performs a second forced refresh — two token requests in the reauth
branch of one logical call, where the claim says exactly one. -/
theorem c5_reauth_once_counterexample :
    (c5AttemptO 0).status = 401
    ∧ (sendEmailFetchM freshCred 0 5000 2 c5RefreshO c5AttemptO).reauthRefreshes = 2 := by
  decide

/-- C5 as amended: if the first attempt returns 401, the forced refresh
succeeds, and the refreshed token's lifetime exceeds the grace window
(`graceMs < expires_in * 1000`, true for every realistic configuration),
then exactly one forced refresh happens, the attempt is retried exactly
once more with the refreshed token, and the transient-retry budget is
untouched: the loop may still retry up to `maxRetries` times. -/
lemma preLoopFetch_reauth_ok (cred0 : Cred) (now graceMs : Nat)
    (refreshO : Nat → Except Unit TokenResponse) (attemptO : Nat → HttpResp)
    (t0 : String) (r : TokenResponse)
    (h1 : (getAccessTokenOnce cred0 now graceMs (refreshO 0)).2.2 = .ok t0)
    (h2 : (attemptO 0).status = 401)
    (h3 : refreshO (getAccessTokenOnce cred0 now graceMs (refreshO 0)).2.1 = .ok r)
    (h4 : respOk r.status = true)
    (h5 : r.access_token ≠ "")
    (h6 : r.expires_in ≠ 0)
    (h7 : graceMs < r.expires_in * 1000) :
    preLoopFetch cred0 now graceMs refreshO attemptO
      = .ok { reauth := 1, toks := [t0, r.access_token], nextIdx := 2,
              resp := attemptO 1, tok := r.access_token } := by
  have hbeq1 : (r.access_token == "") = false := by
    simpa using h5
  have hbeq2 : (r.expires_in == 0) = false := by
    simpa using h6
  have hu : updateAccessToken (getAccessTokenOnce cred0 now graceMs (refreshO 0)).1 now
      (refreshO (getAccessTokenOnce cred0 now graceMs (refreshO 0)).2.1)
      = ({ token := r.access_token, expiresAt := now + r.expires_in * 1000 },
         .ok r.access_token) := by
    rw [h3]
    simp [updateAccessToken, h4, hbeq1, hbeq2]
  have hm : mustRenew
      { token := r.access_token, expiresAt := now + r.expires_in * 1000 } now graceMs
      = false := by
    rw [Bool.eq_false_iff]
    intro hc
    rcases (mustRenew_eq_true_iff _ now graceMs).mp hc with h | h | h
    · exact h5 h
    · simp only at h
      omega
    · simp only [ge_iff_le] at h
      omega
  have hb401 : ((attemptO 0).status == 401) = true := by
    simp [h2]
  rcases hg0 : getAccessTokenOnce cred0 now graceMs (refreshO 0) with ⟨c1, k1, o1⟩
  rw [hg0] at h1 hu
  simp only at h1 hu
  subst h1
  simp only [preLoopFetch, hg0]
  simp only [hb401, eq_self_iff_true, if_true]
  simp only [hu]
  simp [getAccessTokenOnce, hm]

theorem c5_reauth_once_amended (cred0 : Cred) (now graceMs maxRetries : Nat)
    (refreshO : Nat → Except Unit TokenResponse) (attemptO : Nat → HttpResp)
    (t0 : String) (r : TokenResponse)
    (h1 : (getAccessTokenOnce cred0 now graceMs (refreshO 0)).2.2 = .ok t0)
    (h2 : (attemptO 0).status = 401)
    (h3 : refreshO (getAccessTokenOnce cred0 now graceMs (refreshO 0)).2.1 = .ok r)
    (h4 : respOk r.status = true)
    (h5 : r.access_token ≠ "")
    (h6 : r.expires_in ≠ 0)
    (h7 : graceMs < r.expires_in * 1000) :
    (sendEmailFetchM cred0 now graceMs maxRetries refreshO attemptO).reauthRefreshes = 1
    ∧ ∃ n ≤ maxRetries,
        (sendEmailFetchM cred0 now graceMs maxRetries refreshO attemptO).attemptTokens
          = t0 :: r.access_token :: List.replicate n r.access_token
        ∧ (sendEmailFetchM cred0 now graceMs maxRetries refreshO attemptO).delays.length
            = n := by
  have hsend : sendEmailFetchM cred0 now graceMs maxRetries refreshO attemptO
      = finishFetch attemptO maxRetries
          { reauth := 1, toks := [t0, r.access_token], nextIdx := 2,
            resp := attemptO 1, tok := r.access_token } := by
    unfold sendEmailFetchM
    rw [preLoopFetch_reauth_ok cred0 now graceMs refreshO attemptO t0 r h1 h2 h3 h4 h5 h6 h7]
  rw [hsend, finishFetch_reauth, finishFetch_tokens, finishFetch_delays]
  refine ⟨rfl, (goFetch attemptO 2 (attemptO 1) 0 maxRetries).2.2,
    goFetch_retries_le attemptO maxRetries 2 0 (attemptO 1), rfl, ?_⟩
  exact goFetch_delays_length attemptO maxRetries 2 0 (attemptO 1)

/-- Witness for `c5_reauth_once_amended`: first attempt 401, refresh
returns a one-hour token, second attempt 202: one reauth refresh, two
attempts, no backoff retry. -/
theorem c5_reauth_once_amended_witness :
    (c5AttemptO 0).status = 401
    ∧ ((sendEmailFetchM freshCred 0 5000 2 c5wRefreshO c5AttemptO).reauthRefreshes = 1
      ∧ ∃ n ≤ 2,
          (sendEmailFetchM freshCred 0 5000 2 c5wRefreshO c5AttemptO).attemptTokens
            = "tok" :: "t9" :: List.replicate n "t9"
          ∧ (sendEmailFetchM freshCred 0 5000 2 c5wRefreshO c5AttemptO).delays.length = n) :=
  ⟨by decide,
    c5_reauth_once_amended freshCred 0 5000 2 c5wRefreshO c5AttemptO "tok"
      { status := 200, statusText := "", access_token := "t9", expires_in := 3600 }
      (by decide) (by decide) (by decide) (by decide) (by decide) (by decide) (by decide)⟩

/-- C6 fails on the code: the 401 check runs once, between the first
attempt and the retry loop, never inside the loop.  With attempts 500 then
401 the second attempt (made by the backoff loop) returns 401, yet no
forced refresh happens and the 401 is surfaced as the terminal error: the
reauthentication path never ran for that attempt. -/
theorem c6_401_ordering_counterexample :
    (c6AttemptO 1).status = 401
    ∧ (sendEmailFetchM freshCred 0 5000 2 errRefreshO c6AttemptO).reauthRefreshes = 0
    ∧ (sendEmailFetchM freshCred 0 5000 2 errRefreshO c6AttemptO).result
        = .error (.request 401 "" "") := by
  decide

/-- C6 as amended: only the FIRST attempt's status is checked for 401.  A
401 on the first attempt triggers the reauth path before the transient
loop is entered; a 401 on any later attempt is terminal — the loop never
retries a 401 and performs no refresh — and a 401 that persists on the
forced-refresh retry is surfaced as a terminal `request` error with no
further retries. -/
theorem c6_401_before_transient_amended :
    (∀ (cred0 : Cred) (now graceMs maxRetries : Nat)
        (refreshO : Nat → Except Unit TokenResponse) (attemptO : Nat → HttpResp),
        (attemptO 0).status ≠ 401 →
          (sendEmailFetchM cred0 now graceMs maxRetries refreshO attemptO).reauthRefreshes
            = 0)
    ∧ (∀ (attemptO : Nat → HttpResp) (idx retries fuel : Nat) (resp : HttpResp),
        resp.status = 401 → goFetch attemptO idx resp retries fuel = (resp, [], 0))
    ∧ (∀ (cred0 : Cred) (now graceMs maxRetries : Nat)
        (refreshO : Nat → Except Unit TokenResponse) (attemptO : Nat → HttpResp)
        (t0 : String) (r : TokenResponse),
        (getAccessTokenOnce cred0 now graceMs (refreshO 0)).2.2 = .ok t0 →
        (attemptO 0).status = 401 →
        refreshO (getAccessTokenOnce cred0 now graceMs (refreshO 0)).2.1 = .ok r →
        respOk r.status = true → r.access_token ≠ "" → r.expires_in ≠ 0 →
        graceMs < r.expires_in * 1000 →
        (attemptO 1).status = 401 →
          (sendEmailFetchM cred0 now graceMs maxRetries refreshO attemptO).result
              = .error (.request 401 (attemptO 1).statusText (sliceStr (attemptO 1).body 300))
          ∧ (sendEmailFetchM cred0 now graceMs maxRetries refreshO attemptO).delays = []) := by
  refine ⟨?_, ?_, ?_⟩
  · intro cred0 now graceMs maxRetries refreshO attemptO h
    have hb : ((attemptO 0).status == 401) = false := by
      simpa using h
    unfold sendEmailFetchM preLoopFetch
    cases hg : (getAccessTokenOnce cred0 now graceMs (refreshO 0)).2.2 with
    | error e => simp [hg]
    | ok t0 => simp [hg, hb, finishFetch_reauth]
  · intro attemptO idx retries fuel resp h
    exact goFetch_401 attemptO idx retries fuel resp h
  · intro cred0 now graceMs maxRetries refreshO attemptO t0 r h1 h2 h3 h4 h5 h6 h7 h8
    have hsend : sendEmailFetchM cred0 now graceMs maxRetries refreshO attemptO
        = finishFetch attemptO maxRetries
            { reauth := 1, toks := [t0, r.access_token], nextIdx := 2,
              resp := attemptO 1, tok := r.access_token } := by
      unfold sendEmailFetchM
      rw [preLoopFetch_reauth_ok cred0 now graceMs refreshO attemptO t0 r h1 h2 h3 h4 h5 h6 h7]
    have hloop : goFetch attemptO 2 (attemptO 1) 0 maxRetries = (attemptO 1, [], 0) :=
      goFetch_401 attemptO 2 0 maxRetries (attemptO 1) h8
    have hok : respOk (attemptO 1).status = false := by
      rw [h8]
      rfl
    constructor
    · rw [hsend]
      show (if respOk (goFetch attemptO 2 (attemptO 1) 0 maxRetries).1.status then
            (Except.ok true : Except SendError Bool)
          else .error (.request (goFetch attemptO 2 (attemptO 1) 0 maxRetries).1.status
            (goFetch attemptO 2 (attemptO 1) 0 maxRetries).1.statusText
            (sliceStr (goFetch attemptO 2 (attemptO 1) 0 maxRetries).1.body 300)))
          = .error (.request 401 (attemptO 1).statusText (sliceStr (attemptO 1).body 300))
      rw [hloop]
      simp [h8, show respOk 401 = false from rfl]
    · rw [hsend, finishFetch_delays, hloop]

/-- Witness for `c6_401_before_transient_amended`: a first attempt with
status 429 (not 401) yields no reauth refresh, and a loop entered on a
401 response stops at once. -/
theorem c6_401_before_transient_amended_witness :
    ((c4AttemptO 0).status ≠ 401
      ∧ (sendEmailFetchM freshCred 0 5000 2 errRefreshO c4AttemptO).reauthRefreshes = 0)
    ∧ ((mkResp 401).status = 401
      ∧ goFetch c6AttemptO 2 (mkResp 401) 0 2 = (mkResp 401, [], 0)) :=
  ⟨⟨by decide,
      c6_401_before_transient_amended.1 freshCred 0 5000 2 errRefreshO c4AttemptO (by decide)⟩,
    ⟨rfl, c6_401_before_transient_amended.2.1 c6AttemptO 2 0 2 (mkResp 401) rfl⟩⟩

/-- Result dichotomy of the loop-plus-final-check phase: success exactly
when the final response is 2xx, otherwise the terminal `request` error. -/
lemma finishFetch_result_dichotomy (attemptO : Nat → HttpResp) (maxRetries : Nat) (p : PreOut) :
    ((finishFetch attemptO maxRetries p).result = .ok true
      ∧ respOk (goFetch attemptO p.nextIdx p.resp 0 maxRetries).1.status = true)
    ∨ ((finishFetch attemptO maxRetries p).result
        = .error (.request (goFetch attemptO p.nextIdx p.resp 0 maxRetries).1.status
            (goFetch attemptO p.nextIdx p.resp 0 maxRetries).1.statusText
            (sliceStr (goFetch attemptO p.nextIdx p.resp 0 maxRetries).1.body 300))
      ∧ respOk (goFetch attemptO p.nextIdx p.resp 0 maxRetries).1.status = false) := by
  cases hr : respOk (goFetch attemptO p.nextIdx p.resp 0 maxRetries).1.status
  · right
    refine ⟨?_, rfl⟩
    show (if respOk (goFetch attemptO p.nextIdx p.resp 0 maxRetries).1.status then
        (Except.ok true : Except SendError Bool) else _) = _
    rw [hr]
    rfl
  · left
    refine ⟨?_, rfl⟩
    show (if respOk (goFetch attemptO p.nextIdx p.resp 0 maxRetries).1.status then
        (Except.ok true : Except SendError Bool) else _) = _
    rw [hr]
    rfl

/-- C7 fails on the code because of `ping()`: a terminal failed attempt
(here a 500 response) makes `ping` return the plain boolean `false` — a
falsy value handed to the caller with no raised error. -/
theorem c7_no_swallowed_errors_counterexample :
    (pingM freshCred 0 5000 (Except.error ()) (.ok (mkResp 500))).result = .ok false := by
  decide

/-- C7 as amended: `sendEmail` never hands back a falsy or default
success — its result is either `ok true` (and then the final response was
2xx) or a raised error — and token-acquisition or transport errors of
`ping` also raise; but `ping` reports a non-2xx response by RETURNING
`false` rather than raising. -/
theorem c7_no_swallowed_errors_amended :
    (∀ (cred0 : Cred) (now graceMs maxRetries : Nat)
        (refreshO : Nat → Except Unit TokenResponse) (attemptO : Nat → HttpResp),
        (sendEmailFetchM cred0 now graceMs maxRetries refreshO attemptO).result
            ≠ .ok false
        ∧ ((sendEmailFetchM cred0 now graceMs maxRetries refreshO attemptO).result
              = .ok true →
            respOk (sendEmailFetchM cred0 now graceMs maxRetries refreshO attemptO).lastStatus
              = true))
    ∧ (∀ (cred0 : Cred) (now graceMs : Nat) (refreshO : Except Unit TokenResponse)
        (t : String),
        (getAccessTokenOnce cred0 now graceMs refreshO).2.2 = .ok t →
          (pingM cred0 now graceMs refreshO (.error ())).result = .error "timeout") := by
  constructor
  · intro cred0 now graceMs maxRetries refreshO attemptO
    rcases sendEmailFetchM_shape cred0 now graceMs maxRetries refreshO attemptO with
      ⟨r, toks, e, heq⟩ | ⟨p, _, heq⟩
    · rw [heq]
      exact ⟨by simp, by simp⟩
    · rw [heq]
      rcases finishFetch_result_dichotomy attemptO maxRetries p with ⟨hres, hok⟩ | ⟨hres, hok⟩
      · refine ⟨by rw [hres]; simp, fun _ => ?_⟩
        rw [finishFetch_lastStatus]
        exact hok
      · exact ⟨by rw [hres]; simp, fun hc => absurd (hres ▸ hc) (by simp)⟩
  · intro cred0 now graceMs refreshO t hok
    rcases hg : getAccessTokenOnce cred0 now graceMs refreshO with ⟨c1, k1, o1⟩
    rw [hg] at hok
    simp only at hok
    subst hok
    simp [pingM, hg]

/-- Witness for `c7_no_swallowed_errors_amended`: the 429/500/400 send
scenario raises rather than returning a falsy success, and a ping whose
fetch times out raises. -/
theorem c7_no_swallowed_errors_amended_witness :
    ((sendEmailFetchM freshCred 0 5000 2 errRefreshO c4AttemptO).result ≠ .ok false)
    ∧ ((getAccessTokenOnce freshCred 0 5000 (Except.error ())).2.2 = .ok "tok"
      ∧ (pingM freshCred 0 5000 (Except.error ()) (.error ())).result = .error "timeout") :=
  ⟨(c7_no_swallowed_errors_amended.1 freshCred 0 5000 2 errRefreshO c4AttemptO).1,
    ⟨by decide,
      c7_no_swallowed_errors_amended.2 freshCred 0 5000 (Except.error ()) "tok" (by decide)⟩⟩

/-- The fetch loop never starts on a non-retryable status. -/
lemma goFetch_not_retryable (attemptO : Nat → HttpResp) (idx retries fuel : Nat)
    (resp : HttpResp) (h : ¬(resp.status = 429 ∨ 500 ≤ resp.status)) :
    goFetch attemptO idx resp retries fuel = (resp, [], 0) := by
  cases fuel with
  | zero => rfl
  | succ f =>
    simp only [goFetch]
    exact if_neg (fun hc => h ((retryable_cond_fetch resp.status).mp hc))

/-- The axios loop never starts on a non-retryable status. -/
lemma goAxios_not_retryable (attemptO : Nat → HttpResp) (idx retries fuel : Nat)
    (resp : HttpResp) (h : ¬(resp.status = 429 ∨ 500 ≤ resp.status)) :
    goAxios attemptO idx resp retries fuel = (resp, [], 0) := by
  cases fuel with
  | zero => rfl
  | succ f =>
    simp only [goAxios]
    exact if_neg (fun hc => h ((retryable_cond_axios resp.status).mp hc))

/-- Any 2xx status on the first attempt is a final success in both
variants. -/
lemma outcome_2xx (s : Nat) (h1 : 200 ≤ s) (h2 : s < 300) :
    fetchOutcomeAt s = .ok true ∧ axiosOutcomeAt s = .ok true := by
  have hg : getAccessTokenOnce freshCred 0 5000 (errRefreshO 0)
      = (freshCred, 0, .ok "tok") := by decide
  have hb401 : ((constAttemptO s 0).status == 401) = false := by
    simp only [constAttemptO, mkResp, beq_eq_false_iff_ne, Ne]
    omega
  have hnr : ¬((constAttemptO s 0).status = 429 ∨ 500 ≤ (constAttemptO s 0).status) := by
    simp only [constAttemptO, mkResp]
    omega
  have hok : respOk (constAttemptO s 0).status = true := by
    simp only [constAttemptO, mkResp, respOk, Bool.and_eq_true, decide_eq_true_eq]
    omega
  constructor
  · have hpre : preLoopFetch freshCred 0 5000 errRefreshO (constAttemptO s)
        = .ok { reauth := 0, toks := ["tok"], nextIdx := 1, resp := constAttemptO s 0,
                tok := "tok" } := by
      simp only [preLoopFetch, hg]
      simp [hb401]
    unfold fetchOutcomeAt sendEmailFetchM
    rw [hpre]
    show (finishFetch (constAttemptO s) 2
        { reauth := 0, toks := ["tok"], nextIdx := 1, resp := constAttemptO s 0,
          tok := "tok" }).result = .ok true
    have hloop : goFetch (constAttemptO s) 1 (constAttemptO s 0) 0 2
        = (constAttemptO s 0, [], 0) :=
      goFetch_not_retryable (constAttemptO s) 1 0 2 (constAttemptO s 0) hnr
    show (if respOk (goFetch (constAttemptO s) 1 (constAttemptO s 0) 0 2).1.status then
        (Except.ok true : Except SendError Bool) else _) = _
    rw [hloop]
    show (if respOk (constAttemptO s 0).status then
        (Except.ok true : Except SendError Bool) else _) = _
    rw [hok]
    rfl
  · have hpre : preLoopAxios freshCred 0 5000 errRefreshO (constAttemptO s)
        = .ok { reauth := 0, toks := ["tok"], nextIdx := 1, resp := constAttemptO s 0,
                tok := "tok" } := by
      simp only [preLoopAxios, hg]
      simp [hb401, freshCred]
    unfold axiosOutcomeAt sendEmailAxiosM
    rw [hpre]
    show (finishAxios (constAttemptO s) 2
        { reauth := 0, toks := ["tok"], nextIdx := 1, resp := constAttemptO s 0,
          tok := "tok" }).result = .ok true
    have hloop : goAxios (constAttemptO s) 1 (constAttemptO s 0) 0 2
        = (constAttemptO s 0, [], 0) :=
      goAxios_not_retryable (constAttemptO s) 1 0 2 (constAttemptO s 0) hnr
    show (if respOk (goAxios (constAttemptO s) 1 (constAttemptO s 0) 0 2).1.status then
        (Except.ok true : Except SendError Bool) else _) = _
    rw [hloop]
    show (if respOk (constAttemptO s 0).status then
        (Except.ok true : Except SendError Bool) else _) = _
    rw [hok]
    rfl

/-- C9 fails on the code: there is no 2xx status on which the two
variants' final outcomes differ.  The axios loop guard's `!== 202`
conjunct is unreachable (the guard also demands 429 or 5xx), and the axios
variant's FINAL success check is `status < 200 || status >= 300`, the full
2xx range, exactly like `resp.ok` — so every 2xx status, 202 or not, is a
success in both variants. -/
theorem c9_divergent_success_counterexample :
    ¬ ∃ s : Nat, 200 ≤ s ∧ s < 300 ∧ s ≠ 202
        ∧ fetchOutcomeAt s ≠ axiosOutcomeAt s := by
  rintro ⟨s, h1, h2, -, hne⟩
  obtain ⟨hf, ha⟩ := outcome_2xx s h1 h2
  rw [hf, ha] at hne
  exact hne rfl

/-- C9 as amended: the two variants' retry-loop guards read differently
(`!resp.ok` against `resp.status !== 202`) but are extensionally equal, so
the loops behave identically; and both variants' final outcome classifies
every 2xx status — 202 or not — as success. -/
theorem c9_success_predicates_agree (attemptO : Nat → HttpResp) :
    (∀ (fuel idx retries : Nat) (resp : HttpResp),
        goFetch attemptO idx resp retries fuel = goAxios attemptO idx resp retries fuel)
    ∧ (∀ s : Nat, 200 ≤ s → s < 300 →
        fetchOutcomeAt s = .ok true ∧ axiosOutcomeAt s = .ok true) :=
  ⟨goFetch_eq_goAxios attemptO, fun s h1 h2 => outcome_2xx s h1 h2⟩

/-- Witness for `c9_success_predicates_agree` at status 204 (a 2xx status
other than 202): both variants succeed. -/
theorem c9_success_predicates_agree_witness :
    (200 ≤ 204 ∧ 204 < 300)
    ∧ fetchOutcomeAt 204 = .ok true ∧ axiosOutcomeAt 204 = .ok true :=
  ⟨by decide, (c9_success_predicates_agree c4AttemptO).2 204 (by decide) (by decide)⟩

/-- C10: `ping()` performs exactly one HTTP attempt and returns the
boolean `resp.ok` — true exactly for a 2xx status.  A 401 response forces
no refresh and a 429/5xx response triggers no retry (the refresh count is
whatever the initial `getAccessToken` did, independent of the response),
a non-success status yields the returned value `false` rather than an
error, and only transport failures (timeout) raise. -/
theorem c10_ping_exempt (cred0 : Cred) (now graceMs : Nat)
    (refreshO : Except Unit TokenResponse) (t : String)
    (hok : (getAccessTokenOnce cred0 now graceMs refreshO).2.2 = .ok t) :
    (∀ r : HttpResp,
        pingM cred0 now graceMs refreshO (.ok r)
          = { result := .ok (respOk r.status), attempts := 1,
              refreshes := (getAccessTokenOnce cred0 now graceMs refreshO).2.1 })
    ∧ pingM cred0 now graceMs refreshO (.error ())
        = { result := .error "timeout", attempts := 1,
            refreshes := (getAccessTokenOnce cred0 now graceMs refreshO).2.1 }
    ∧ (∀ s : Nat, respOk s = true ↔ (200 ≤ s ∧ s < 300)) := by
  rcases hg : getAccessTokenOnce cred0 now graceMs refreshO with ⟨c1, k1, o1⟩
  rw [hg] at hok
  simp only at hok
  subst hok
  refine ⟨?_, ?_, ?_⟩
  · intro r
    simp [pingM, hg]
  · simp [pingM, hg]
  · intro s
    simp [respOk]

/-- Witness for `c10_ping_exempt`: a 503 response makes `ping` on a fresh
credential return `false` after exactly one attempt and no refresh. -/
theorem c10_ping_exempt_witness :
    ((getAccessTokenOnce freshCred 0 5000 (Except.error ())).2.2 = .ok "tok")
    ∧ pingM freshCred 0 5000 (Except.error ()) (.ok (mkResp 503))
        = { result := .ok false, attempts := 1, refreshes := 0 } :=
  ⟨by decide, by
    have h := (c10_ping_exempt freshCred 0 5000 (Except.error ()) "tok" (by decide)).1
      (mkResp 503)
    rw [h]
    decide⟩

end Flowmailer
